import Mathlib

/-!
Verification of the ammuto-core library (query construction, tri-state
value model, core dispatcher) against its specification.

The Rust sources are shallowly embedded:
* machine integers (`u64`, `u32`, `u128`) become `Nat`, with explicit
  `% 2 ^ 64` truncation where the source casts;
* `Uuid::new_v4()` (a freshly generated random 128-bit value) is modelled
  by passing the generated value as an explicit argument;
* `Vec<T>` becomes `List T`; the modifier stack's `Vec::push`/`Vec::pop`
  (push and pop at the END of the vector) is modelled by `List.cons` and
  head-matching, the same LIFO discipline with the top of the stack at the
  head of the list;
* the frontend adapter's `database_message` callback is a side effect; it
  is modelled by having the dispatcher return, along with its result, the
  list of callback invocations `(query id, result)` in the order they were
  made.
-/

namespace Ammuto

/-- Tri-state database value, from `query.rs` `DatabaseValue<T>`:
a valid value (`Some`), no value (`None`), or not authorised. -/
inductive DatabaseValue (T : Type) where
  | some (t : T)
  | none
  | unauthorised
deriving DecidableEq

/-- True exactly when the value is in the `Some` (present) state. -/
def DatabaseValue.isSome {T : Type} : DatabaseValue T → Bool
  | DatabaseValue.some _ => true
  | _ => false

/-- Model of `uuid::Uuid::as_u64_pair`: splits a 128-bit value into its
first (most significant) and second (least significant) 64-bit halves,
`((value >> 64) as u64, value as u64)`. -/
def Uuid.as_u64_pair (value : Nat) : Nat × Nat :=
  (value / 2 ^ 64 % 2 ^ 64, value % 2 ^ 64)

/-- Record from `data.rs`: an organisational tag.  The `id` field is a bare
`u64`; the remaining fields are `DatabaseValue`-wrapped. -/
structure Tag where
  id : Nat
  name : DatabaseValue String
  created_by : DatabaseValue Nat
  aliases : DatabaseValue (List Nat)
deriving DecidableEq

/-- Embeds `Tag::new` from `data.rs`: the id is the first 64-bit half of a
freshly generated 128-bit value (passed here as `r`), every other field is
wrapped as `Some`. -/
def Tag.new (r : Nat) (name : String) (created_by : Nat) (aliases : List Nat) : Tag :=
  { id := (Uuid.as_u64_pair r).1
    name := DatabaseValue.some name
    created_by := DatabaseValue.some created_by
    aliases := DatabaseValue.some aliases }

/-- Record from `data.rs`: a collection of media. -/
structure Collection where
  id : Nat
  name : DatabaseValue String
  created_by : DatabaseValue Nat
  contained_media : DatabaseValue (List Nat)
deriving DecidableEq

/-- Embeds `Collection::new` from `data.rs`. -/
def Collection.new (r : Nat) (name : String) (created_by : Nat)
    (contained_media : List Nat) : Collection :=
  { id := (Uuid.as_u64_pair r).1
    name := DatabaseValue.some name
    created_by := DatabaseValue.some created_by
    contained_media := DatabaseValue.some contained_media }

/-- Record from `data.rs`: a group of tags. -/
structure Group where
  id : Nat
  name : DatabaseValue String
  created_by : DatabaseValue Nat
  contained_tags : DatabaseValue (List Nat)
deriving DecidableEq

/-- Embeds `Group::new` from `data.rs`. -/
def Group.new (r : Nat) (name : String) (created_by : Nat)
    (contained_tags : List Nat) : Group :=
  { id := (Uuid.as_u64_pair r).1
    name := DatabaseValue.some name
    created_by := DatabaseValue.some created_by
    contained_tags := DatabaseValue.some contained_tags }

/-- Model of the `Rc<dyn MediaProperties>` trait object from `data.rs` by
its observable content (`as_hash_set`): a collection of key/value string
pairs. -/
def MediaProps : Type := List (String × String)

instance : DecidableEq MediaProps := by
  unfold MediaProps
  infer_instance

/-- Record from `data.rs`: a media object. -/
structure Media where
  id : Nat
  custom_properties : DatabaseValue MediaProps
  extension : DatabaseValue String
  created_by : DatabaseValue Nat
deriving DecidableEq

/-- Embeds `Media::new` from `data.rs`: `extension` and `created_by` are
wrapped as `Some`; `custom_properties` is `Some` when the optional argument
is supplied and `None` otherwise, mirroring the source's `if let`. -/
def Media.new (r : Nat) (extension : String) (created_by : Nat)
    (custom_properties : Option MediaProps) : Media :=
  { id := (Uuid.as_u64_pair r).1
    extension := DatabaseValue.some extension
    created_by := DatabaseValue.some created_by
    custom_properties :=
      match custom_properties with
      | Option.some properties => DatabaseValue.some properties
      | Option.none => DatabaseValue.none }

/-- Record from `data.rs`: a user. -/
structure User where
  id : Nat
  name : DatabaseValue String
  passhash : DatabaseValue String
deriving DecidableEq

/-- Embeds `User::new` from `data.rs`. -/
def User.new (r : Nat) (name : String) (passhash : String) : User :=
  { id := (Uuid.as_u64_pair r).1
    name := DatabaseValue.some name
    passhash := DatabaseValue.some passhash }

/-- Table or data type a query may operate on, from `query.rs` `QueryType`. -/
inductive QueryType where
  | tags
  | media
  | groups
  | collections
  | users
  | other (s : String)
deriving DecidableEq

/-- Queued modifier for a query condition, from `query.rs` `QueryModifier`. -/
inductive QueryModifier where
  | not
  | or
deriving DecidableEq

/-- Operators found within a query, from `query.rs` `QueryCondition`.  The
source's `Or(Box<Or>)` variant carries the pair struct
`Or(QueryCondition, QueryCondition)`; the boxed pair is inlined here as two
sub-condition arguments. -/
inductive QueryCondition where
  | not (c : QueryCondition)
  | or (left right : QueryCondition)
  | id (n : Nat)
  | nameIs (s : String)
  | nameContains (s : String)
  | nameFuzzy (s : String)
  | amount (n : Nat)
  | skip (n : Nat)
  | isRelatedTo (n : Nat)
  | isAliasOf (n : Nat)
  | isInGroup (n : Nat)
  | hasCustomProperty (s : String)
  | isInCollection (n : Nat)
  | createdBy (n : Nat)
  | hasPermissions (n : Nat)
  | contains (n : Nat)
deriving DecidableEq

/-- Format a query wishes to receive data back as, from `query.rs`
`ReturnType`. -/
inductive ReturnType where
  | quantity
  | objects
deriving DecidableEq

/-- Fully formed query, from `query.rs` `DatabaseQuery` (query id modelled
as a `Nat`). -/
structure DatabaseQuery where
  query_type : QueryType
  conditions : List QueryCondition
  return_type : ReturnType
  id : Nat
deriving DecidableEq

/-- One of the five record kinds a builder targets.  The source declares
five builder structs (`TagQuery`, `MediaQuery`, `GroupQuery`,
`CollectionQuery`, `UserQuery`) whose fields and whose
`count`/`all`/`add_condition`/`queue_modifier`/`dequeue_modifier` bodies
are textually identical; they differ only in the `query_type` their
`finalise` writes.  The shared state is embedded once as `BuilderState`,
with `finalise` parameterised by the record kind. -/
inductive RecordKind where
  | tag
  | media
  | group
  | collection
  | user
deriving DecidableEq

/-- The `query_type` each record kind's `finalise` writes. -/
def RecordKind.query_type : RecordKind → QueryType
  | RecordKind.tag => QueryType.tags
  | RecordKind.media => QueryType.media
  | RecordKind.group => QueryType.groups
  | RecordKind.collection => QueryType.collections
  | RecordKind.user => QueryType.users

/-- Shared state of the five builder structs in `query.rs`: return type,
accumulated top-level conditions, the pending `Or` left operand, and the
modifier stack (top of stack at the head of the list, matching
`Vec::push`/`Vec::pop` at the end of the vector). -/
structure BuilderState where
  return_type : ReturnType
  conditions : List QueryCondition
  accumulator : Option QueryCondition
  modifiers : List QueryModifier
deriving DecidableEq

/-- Embeds `count()`: begins a query that returns the quantity of
matches. -/
def BuilderState.count : BuilderState :=
  { return_type := ReturnType.quantity
    conditions := []
    accumulator := Option.none
    modifiers := [] }

/-- Embeds `all()`: begins a query that returns the matching objects. -/
def BuilderState.all : BuilderState :=
  { return_type := ReturnType.objects
    conditions := []
    accumulator := Option.none
    modifiers := [] }

/-- Embeds `queue_modifier`: pushes a modifier on the stack. -/
def BuilderState.queue_modifier (b : BuilderState) (m : QueryModifier) : BuilderState :=
  { b with modifiers := m :: b.modifiers }

/-- Recursion core of `add_condition` from `query.rs`, structural on the
modifier stack.  Takes the stack, the accumulator, the condition list and
the condition being added; returns the updated stack, accumulator and
condition list:
* empty stack: the condition is pushed onto the condition list;
* popped `Not`: recurse with the condition wrapped as `Not`;
* popped `Or` with a pending left operand `first`: clear the accumulator
  and recurse with the combined `Or(first, condition)`;
* popped `Or` with no pending operand: re-queue the `Or` and store the
  condition as the pending left operand. -/
def addConditionCore :
    List QueryModifier → Option QueryCondition → List QueryCondition →
    QueryCondition → List QueryModifier × Option QueryCondition × List QueryCondition
  | [], accumulator, conditions, condition =>
    ([], accumulator, conditions ++ [condition])
  | QueryModifier.not :: rest, accumulator, conditions, condition =>
    addConditionCore rest accumulator conditions (QueryCondition.not condition)
  | QueryModifier.or :: rest, accumulator, conditions, condition =>
    match accumulator with
    | Option.some first =>
      addConditionCore rest Option.none conditions (QueryCondition.or first condition)
    | Option.none =>
      (QueryModifier.or :: rest, Option.some condition, conditions)

/-- Embeds `add_condition` from `query.rs`: dequeues at most one modifier
per recursive step and applies it as described in `addConditionCore`. -/
def BuilderState.add_condition (b : BuilderState) (condition : QueryCondition) : BuilderState :=
  let r := addConditionCore b.modifiers b.accumulator b.conditions condition
  { b with modifiers := r.1, accumulator := r.2.1, conditions := r.2.2 }

/-- Embeds the `not()` builder method: queues a `Not` modifier. -/
def BuilderState.not (b : BuilderState) : BuilderState :=
  b.queue_modifier QueryModifier.not

/-- Embeds the `or()` builder method: queues an `Or` modifier. -/
def BuilderState.or (b : BuilderState) : BuilderState :=
  b.queue_modifier QueryModifier.or

/-- Embeds the `with_id` builder method. -/
def BuilderState.with_id (b : BuilderState) (id : Nat) : BuilderState :=
  b.add_condition (QueryCondition.id id)

/-- Embeds `finalise` from `query.rs`: converts the builder into a
`DatabaseQuery` carrying the kind's query type, the accumulated top-level
conditions, the builder's return type, and a freshly generated id (the
generated `Uuid::new_v4()` value is passed as `u`). -/
def BuilderState.finalise (b : BuilderState) (k : RecordKind) (u : Nat) : DatabaseQuery :=
  { query_type := k.query_type
    conditions := b.conditions
    return_type := b.return_type
    id := u }

/-- One condition-adding builder method call, covering the shared methods
of the `QueryBuilder` trait and the kind-specific inherent methods in
`query.rs`.  Each call adds exactly the condition given by
`ConditionCall.condition`. -/
inductive ConditionCall where
  | with_id (id : Nat)
  | with_name (name : String)
  | with_name_containing (text : String)
  | with_name_fuzzy (text : String)
  | with_amount (amount : Nat)
  | skip_entries (count : Nat)
  | related_to (id : Nat)
  | has_custom_property (property : String)
  | alias_of (id : Nat)
  | in_group (id : Nat)
  | created_by (id : Nat)
  | in_collection (id : Nat)
  | contains_media (id : Nat)
deriving DecidableEq

/-- The condition each condition-adding method passes to `add_condition`,
read off the method bodies in `query.rs`. -/
def ConditionCall.condition : ConditionCall → QueryCondition
  | ConditionCall.with_id id => QueryCondition.id id
  | ConditionCall.with_name name => QueryCondition.nameIs name
  | ConditionCall.with_name_containing text => QueryCondition.nameContains text
  | ConditionCall.with_name_fuzzy text => QueryCondition.nameFuzzy text
  | ConditionCall.with_amount amount => QueryCondition.amount amount
  | ConditionCall.skip_entries count => QueryCondition.skip count
  | ConditionCall.related_to id => QueryCondition.isRelatedTo id
  | ConditionCall.has_custom_property property => QueryCondition.hasCustomProperty property
  | ConditionCall.alias_of id => QueryCondition.isAliasOf id
  | ConditionCall.in_group id => QueryCondition.isInGroup id
  | ConditionCall.created_by id => QueryCondition.createdBy id
  | ConditionCall.in_collection id => QueryCondition.isInCollection id
  | ConditionCall.contains_media id => QueryCondition.contains id

/-- Applies one condition-adding method call to the builder. -/
def BuilderState.applyCall (b : BuilderState) (c : ConditionCall) : BuilderState :=
  b.add_condition c.condition

/-- Any builder method call between construction and `finalise`: a
condition-adding call, or one of the modifier methods `not()` / `or()`. -/
inductive BuilderOp where
  | call (c : ConditionCall)
  | not
  | or
deriving DecidableEq

/-- Applies one builder method call to the builder. -/
def BuilderState.applyOp (b : BuilderState) : BuilderOp → BuilderState
  | BuilderOp.call c => b.applyCall c
  | BuilderOp.not => b.not
  | BuilderOp.or => b.or

/-- Runs a sequence of builder method calls from a starting state. -/
def BuilderState.runOps (b : BuilderState) (ops : List BuilderOp) : BuilderState :=
  ops.foldl BuilderState.applyOp b

/-- Possible return types from a database, from `query.rs`
`DatabaseResult`, plus the `NoDatabase` variant.  Modelled from the spec:
`lib.rs` constructs `DatabaseResult::NoDatabase` in `Core::send_query`, but
the `DatabaseResult` enum declared in `query.rs` lacks that variant; the
spec (§7, §4.3) requires a synthesized `NoDatabase` error result, so the
variant is added here. -/
inductive DatabaseResult where
  | tags (v : List Tag)
  | media (v : List Media)
  | groups (v : List Group)
  | collections (v : List Collection)
  | users (v : List User)
  | integer (n : Nat)
  | noDatabase
deriving DecidableEq

/-- The core dispatcher from `lib.rs`: one frontend (its only method used
by the dispatcher, `database_message`, is modelled by the invocation log
returned from `send_query`) and zero-or-one database adapter, modelled by
its `send_query` function. -/
structure Core where
  database : Option (DatabaseQuery → DatabaseResult)

/-- Embeds `Core::send_query` from `lib.rs`.  Returns the `DatabaseResult`
handed back to the caller, paired with the list of
`frontend.database_message(id, result)` invocations made during the call,
in order: with a database attached, the database result is reported once
under the query's id and then returned; with none attached, `NoDatabase`
is reported once under the query's id and then returned. -/
def Core.send_query (c : Core) (query : DatabaseQuery) :
    DatabaseResult × List (Nat × DatabaseResult) :=
  match c.database with
  | Option.some database =>
    let result := database query
    (result, [(query.id, result)])
  | Option.none =>
    (DatabaseResult.noDatabase, [(query.id, DatabaseResult.noDatabase)])

/-- Result of calling a public accessor on a record from `data.rs`.  The
constructor mirrors the accessor's return type in the source: `wrapped*`
for accessors returning a `&DatabaseValue<...>`, `bare` for accessors
returning a bare `u64`. -/
inductive AccessorOutput where
  | wrappedStr (v : DatabaseValue String)
  | wrappedU64 (v : DatabaseValue Nat)
  | wrappedList (v : DatabaseValue (List Nat))
  | wrappedProps (v : DatabaseValue MediaProps)
  | bare (n : Nat)
deriving DecidableEq

/-- True exactly when the accessor output is a `DatabaseValue`
(tri-state), not a bare integer. -/
def AccessorOutput.isWrapped : AccessorOutput → Bool
  | AccessorOutput.bare _ => false
  | _ => true

/-- The public accessors of `Tag` in `data.rs`. -/
inductive TagAccessor where
  | id
  | name
  | aliases
  | created_by
deriving DecidableEq

/-- Each `Tag` accessor's result, read off `data.rs`: `id()` returns a bare
`u64`, the others return `&DatabaseValue<...>`. -/
def Tag.access (t : Tag) : TagAccessor → AccessorOutput
  | TagAccessor.id => AccessorOutput.bare t.id
  | TagAccessor.name => AccessorOutput.wrappedStr t.name
  | TagAccessor.aliases => AccessorOutput.wrappedList t.aliases
  | TagAccessor.created_by => AccessorOutput.wrappedU64 t.created_by

/-- The public accessors of `Collection` in `data.rs`. -/
inductive CollectionAccessor where
  | id
  | name
  | contained_media
  | created_by
deriving DecidableEq

/-- Each `Collection` accessor's result, read off `data.rs`. -/
def Collection.access (c : Collection) : CollectionAccessor → AccessorOutput
  | CollectionAccessor.id => AccessorOutput.bare c.id
  | CollectionAccessor.name => AccessorOutput.wrappedStr c.name
  | CollectionAccessor.contained_media => AccessorOutput.wrappedList c.contained_media
  | CollectionAccessor.created_by => AccessorOutput.wrappedU64 c.created_by

/-- The public accessors of `Group` in `data.rs`. -/
inductive GroupAccessor where
  | id
  | name
  | contained_tags
  | created_by
deriving DecidableEq

/-- Each `Group` accessor's result, read off `data.rs`. -/
def Group.access (g : Group) : GroupAccessor → AccessorOutput
  | GroupAccessor.id => AccessorOutput.bare g.id
  | GroupAccessor.name => AccessorOutput.wrappedStr g.name
  | GroupAccessor.contained_tags => AccessorOutput.wrappedList g.contained_tags
  | GroupAccessor.created_by => AccessorOutput.wrappedU64 g.created_by

/-- The public accessors of `Media` in `data.rs`. -/
inductive MediaAccessor where
  | id
  | extension
  | custom_properties
  | created_by
deriving DecidableEq

/-- Each `Media` accessor's result, read off `data.rs`. -/
def Media.access (m : Media) : MediaAccessor → AccessorOutput
  | MediaAccessor.id => AccessorOutput.bare m.id
  | MediaAccessor.extension => AccessorOutput.wrappedStr m.extension
  | MediaAccessor.custom_properties => AccessorOutput.wrappedProps m.custom_properties
  | MediaAccessor.created_by => AccessorOutput.wrappedU64 m.created_by

/-- The public accessors of `User` in `data.rs`. -/
inductive UserAccessor where
  | id
  | name
  | passhash
deriving DecidableEq

/-- Each `User` accessor's result, read off `data.rs`. -/
def User.access (u : User) : UserAccessor → AccessorOutput
  | UserAccessor.id => AccessorOutput.bare u.id
  | UserAccessor.name => AccessorOutput.wrappedStr u.name
  | UserAccessor.passhash => AccessorOutput.wrappedStr u.passhash

/-! Helper lemmas. -/

/-- With an empty modifier stack, `add_condition` just pushes the condition
onto the end of the top-level condition list. -/
theorem BuilderState.add_condition_of_no_modifiers (b : BuilderState)
    (c : QueryCondition) (h : b.modifiers = []) :
    b.add_condition c = { b with conditions := b.conditions ++ [c] } := by
  rcases b with ⟨rt, cs, acc, ms⟩
  simp only at h
  subst h
  rfl

/-- No builder method call changes the builder's return type. -/
theorem BuilderState.applyOp_return_type (b : BuilderState) (op : BuilderOp) :
    (b.applyOp op).return_type = b.return_type := by
  cases op <;> rfl

/-- Running any sequence of builder method calls preserves the return
type. -/
theorem BuilderState.runOps_return_type (ops : List BuilderOp) (b : BuilderState) :
    (b.runOps ops).return_type = b.return_type := by
  induction ops generalizing b with
  | nil => rfl
  | cons op ops ih =>
    calc (b.runOps (op :: ops)).return_type
        = ((b.applyOp op).runOps ops).return_type := rfl
      _ = (b.applyOp op).return_type := ih (b.applyOp op)
      _ = b.return_type := b.applyOp_return_type op

/-- Folding condition-adding calls over a builder with an empty modifier
stack appends exactly the calls' conditions, in call order, and leaves the
modifier stack empty. -/
theorem BuilderState.foldl_applyCall_of_no_modifiers (calls : List ConditionCall) :
    ∀ b : BuilderState, b.modifiers = [] →
      (calls.foldl BuilderState.applyCall b).conditions
        = b.conditions ++ calls.map ConditionCall.condition
      ∧ (calls.foldl BuilderState.applyCall b).modifiers = [] := by
  induction calls with
  | nil => intro b h; simp [h]
  | cons c calls ih =>
    intro b h
    have hstep : b.applyCall c = { b with conditions := b.conditions ++ [c.condition] } :=
      b.add_condition_of_no_modifiers c.condition h
    have hrest := ih (b.applyCall c) (by rw [hstep]; exact h)
    constructor
    · calc (((c :: calls).foldl BuilderState.applyCall b)).conditions
          = ((calls.foldl BuilderState.applyCall (b.applyCall c))).conditions := rfl
        _ = (b.applyCall c).conditions ++ calls.map ConditionCall.condition := hrest.1
        _ = (b.conditions ++ [c.condition]) ++ calls.map ConditionCall.condition := by
            rw [hstep]
        _ = b.conditions ++ (c :: calls).map ConditionCall.condition := by
            simp [List.append_assoc]
    · exact hrest.2

/-! Theorems settling the claims. -/

/-- Claim C1: for every record-kind builder freshly started with `count()`
or `all()`, calling `not()`, then `or()`, then `with_id 1`, then
`with_id 2` yields a query with exactly one top-level condition,
`Not(Or(Id 1, Id 2))`: queued modifiers are popped last-in-first-out when a
condition is appended, so the outermost-queued modifier is applied last. -/
theorem not_or_composes_outermost_queued_last (k : RecordKind) (u : Nat)
    (b : BuilderState) (h : b = BuilderState.count ∨ b = BuilderState.all) :
    (((((b.not).or).with_id 1).with_id 2).finalise k u).conditions =
      [QueryCondition.not (QueryCondition.or (QueryCondition.id 1) (QueryCondition.id 2))] := by
  rcases h with h | h <;> subst h <;> rfl

/-- Witness for C1 at the tag-kind builder started with `count()`. -/
theorem not_or_composes_outermost_queued_last_witness :
    (((((BuilderState.count.not).or).with_id 1).with_id 2).finalise RecordKind.tag 0).conditions =
      [QueryCondition.not (QueryCondition.or (QueryCondition.id 1) (QueryCondition.id 2))] :=
  not_or_composes_outermost_queued_last RecordKind.tag 0 BuilderState.count (Or.inl rfl)

/-- Claim C4: for every record-kind builder freshly started with `count()`
or `all()`, calling `or()`, then `with_id 1`, then `with_id 2` yields a
query with exactly one top-level condition `Or(Id 1, Id 2)`: the first
condition after a queued `Or` becomes the pending left operand and the
second resolves the pair. -/
theorem or_pairs_next_two_conditions (k : RecordKind) (u : Nat)
    (b : BuilderState) (h : b = BuilderState.count ∨ b = BuilderState.all) :
    ((((b.or).with_id 1).with_id 2).finalise k u).conditions =
      [QueryCondition.or (QueryCondition.id 1) (QueryCondition.id 2)] := by
  rcases h with h | h <;> subst h <;> rfl

/-- Witness for C4 at the media-kind builder started with `all()`. -/
theorem or_pairs_next_two_conditions_witness :
    ((((BuilderState.all.or).with_id 1).with_id 2).finalise RecordKind.media 0).conditions =
      [QueryCondition.or (QueryCondition.id 1) (QueryCondition.id 2)] :=
  or_pairs_next_two_conditions RecordKind.media 0 BuilderState.all (Or.inr rfl)

/-- Claim C5: for every sequence of condition-adding calls on a freshly
started builder with no intervening `not()` or `or()` calls, `finalise`
yields a query whose top-level conditions are exactly the added conditions
in call order. -/
theorem conditions_kept_in_call_order (calls : List ConditionCall)
    (b : BuilderState) (k : RecordKind) (u : Nat)
    (h : b = BuilderState.count ∨ b = BuilderState.all) :
    ((calls.foldl BuilderState.applyCall b).finalise k u).conditions =
      calls.map ConditionCall.condition := by
  have hm : b.modifiers = [] := by rcases h with h | h <;> subst h <;> rfl
  have hc : b.conditions = [] := by rcases h with h | h <;> subst h <;> rfl
  have hfold := BuilderState.foldl_applyCall_of_no_modifiers calls b hm
  calc ((calls.foldl BuilderState.applyCall b).finalise k u).conditions
      = (calls.foldl BuilderState.applyCall b).conditions := rfl
    _ = b.conditions ++ calls.map ConditionCall.condition := hfold.1
    _ = calls.map ConditionCall.condition := by rw [hc]; simp

/-- Witness for C5 on a builder started with `count()` and two
condition-adding calls. -/
theorem conditions_kept_in_call_order_witness :
    ((([ConditionCall.with_id 5, ConditionCall.with_name "a"].foldl
        BuilderState.applyCall BuilderState.count).finalise RecordKind.collection 3).conditions =
      [QueryCondition.id 5, QueryCondition.nameIs "a"]) :=
  conditions_kept_in_call_order [ConditionCall.with_id 5, ConditionCall.with_name "a"]
    BuilderState.count RecordKind.collection 3 (Or.inl rfl)

/-- Claim C9: building is infallible — for every record-kind builder, every
starting state and every sequence of builder method calls, every method is
total and `finalise` always returns the `DatabaseQuery` carrying the kind's
query type, the accumulated conditions, the (never modified) return type
and the fresh id; no construction step can fail. -/
theorem building_is_infallible (ops : List BuilderOp) (b : BuilderState)
    (k : RecordKind) (u : Nat) :
    (b.runOps ops).finalise k u =
      { query_type := k.query_type
        conditions := (b.runOps ops).conditions
        return_type := b.return_type
        id := u } := by
  have h := BuilderState.runOps_return_type ops b
  simp [BuilderState.finalise, h]

/-- Claim C10: `finalise` silently discards still-queued modifiers and the
pending `Or` accumulator.  After `or(); or(); with_id 1; with_id 2` on a
fresh builder the combined `Or(Id 1, Id 2)` sits in the accumulator, an
`Or` modifier is still queued, and `finalise` returns a query with an empty
top-level condition list; in general `finalise` gives the same query as on
the builder with its modifier stack and accumulator cleared, surfacing no
`BadModifier` error. -/
theorem finalise_silently_drops_pending_state (k : RecordKind) (u : Nat)
    (b b2 : BuilderState) (h : b = BuilderState.count ∨ b = BuilderState.all) :
    ((((b.or).or).with_id 1).with_id 2).accumulator =
        Option.some (QueryCondition.or (QueryCondition.id 1) (QueryCondition.id 2))
    ∧ ((((b.or).or).with_id 1).with_id 2).modifiers = [QueryModifier.or]
    ∧ (((((b.or).or).with_id 1).with_id 2).finalise k u).conditions = []
    ∧ b2.finalise k u =
        BuilderState.finalise { b2 with modifiers := [], accumulator := Option.none } k u := by
  rcases h with h | h <;> subst h <;> exact ⟨rfl, rfl, rfl, rfl⟩

/-- Witness for C10 at the group-kind builder started with `all()`. -/
theorem finalise_silently_drops_pending_state_witness :
    ((((BuilderState.all.or).or).with_id 1).with_id 2).accumulator =
        Option.some (QueryCondition.or (QueryCondition.id 1) (QueryCondition.id 2))
    ∧ (((((BuilderState.all.or).or).with_id 1).with_id 2).finalise RecordKind.group 9).conditions = [] := by
  have h := finalise_silently_drops_pending_state RecordKind.group 9
    BuilderState.all BuilderState.count (Or.inr rfl)
  exact ⟨h.1, h.2.2.1⟩

/-- Claim C2: for every query submitted to a core dispatcher whose database
field is `None`, `send_query` returns the `NoDatabase` result and invokes
the frontend's `database_message` callback exactly once, with that
`NoDatabase` result and the submitted query's id (the invocation log is the
singleton `[(query.id, NoDatabase)]`). -/
theorem send_query_no_database (c : Core) (q : DatabaseQuery)
    (h : c.database = Option.none) :
    c.send_query q = (DatabaseResult.noDatabase, [(q.id, DatabaseResult.noDatabase)]) := by
  simp [Core.send_query, h]

/-- Witness for C2 on a dispatcher with no database and a concrete query. -/
theorem send_query_no_database_witness :
    Core.send_query { database := Option.none }
        { query_type := QueryType.tags, conditions := [], return_type := ReturnType.quantity, id := 5 } =
      (DatabaseResult.noDatabase, [(5, DatabaseResult.noDatabase)]) :=
  send_query_no_database { database := Option.none }
    { query_type := QueryType.tags, conditions := [], return_type := ReturnType.quantity, id := 5 } rfl

/-- Claim C3: for every query submitted to a core dispatcher with a database
attached, `send_query` invokes the frontend's `database_message` callback
exactly once, passing the result produced by the database adapter together
with the original query's id, and returns that same result to the caller. -/
theorem send_query_with_database (c : Core) (q : DatabaseQuery)
    (db : DatabaseQuery → DatabaseResult) (h : c.database = Option.some db) :
    c.send_query q = (db q, [(q.id, db q)]) := by
  simp [Core.send_query, h]

/-- Witness for C3 on a dispatcher whose database returns the count 7. -/
theorem send_query_with_database_witness :
    Core.send_query { database := Option.some (fun _ => DatabaseResult.integer 7) }
        { query_type := QueryType.media, conditions := [], return_type := ReturnType.quantity, id := 42 } =
      (DatabaseResult.integer 7, [(42, DatabaseResult.integer 7)]) :=
  send_query_with_database { database := Option.some (fun _ => DatabaseResult.integer 7) }
    { query_type := QueryType.media, conditions := [], return_type := ReturnType.quantity, id := 42 }
    (fun _ => DatabaseResult.integer 7) rfl

/-- Claim C6 counterexample: `Media::new` called without the optional
`custom_properties` argument produces a record whose `custom_properties`
field is in the `None` (absent) state, not `Some`. -/
theorem media_new_yields_absent_custom_properties :
    (Media.new 0 "png" 7 Option.none).custom_properties = DatabaseValue.none
    ∧ ((Media.new 0 "png" 7 Option.none).custom_properties).isSome = false :=
  ⟨rfl, rfl⟩

/-- Claim C6 (amended): every constructor yields `Some` for every
`DatabaseValue`-wrapped field, except `Media::new`'s `custom_properties`,
which is `Some p` exactly when the optional argument `some p` is supplied
and `None` when it is not. -/
theorem constructors_yield_present_fields (r cb : Nat) (name ext ph : String)
    (ids : List Nat) (props : Option MediaProps) :
    (Tag.new r name cb ids).name = DatabaseValue.some name
    ∧ (Tag.new r name cb ids).created_by = DatabaseValue.some cb
    ∧ (Tag.new r name cb ids).aliases = DatabaseValue.some ids
    ∧ (Collection.new r name cb ids).name = DatabaseValue.some name
    ∧ (Collection.new r name cb ids).created_by = DatabaseValue.some cb
    ∧ (Collection.new r name cb ids).contained_media = DatabaseValue.some ids
    ∧ (Group.new r name cb ids).name = DatabaseValue.some name
    ∧ (Group.new r name cb ids).created_by = DatabaseValue.some cb
    ∧ (Group.new r name cb ids).contained_tags = DatabaseValue.some ids
    ∧ (Media.new r ext cb props).extension = DatabaseValue.some ext
    ∧ (Media.new r ext cb props).created_by = DatabaseValue.some cb
    ∧ (Media.new r ext cb props).custom_properties =
        (match props with
          | Option.some p => DatabaseValue.some p
          | Option.none => DatabaseValue.none)
    ∧ (User.new r name ph).name = DatabaseValue.some name
    ∧ (User.new r name ph).passhash = DatabaseValue.some ph :=
  ⟨rfl, rfl, rfl, rfl, rfl, rfl, rfl, rfl, rfl, rfl, rfl, rfl, rfl, rfl⟩

/-- Claim C7 counterexample: the `id` accessor of `Tag` and of `User`, on
concrete constructed records, returns a bare 64-bit integer, not a
tri-state `DatabaseValue`. -/
theorem id_accessor_returns_bare_integer :
    ((Tag.new 0 "a" 0 []).access TagAccessor.id).isWrapped = false
    ∧ ((User.new 0 "u" "h").access UserAccessor.id).isWrapped = false :=
  ⟨rfl, rfl⟩

/-- Claim C7 (amended): for every record kind, every public accessor other
than `id` returns a tri-state `DatabaseValue`; the `id` accessor of each
record kind instead returns the record's bare 64-bit identifier. -/
theorem accessors_wrapped_except_id
    (t : Tag) (c : Collection) (g : Group) (m : Media) (u : User)
    (ta : TagAccessor) (ca : CollectionAccessor) (ga : GroupAccessor)
    (ma : MediaAccessor) (ua : UserAccessor)
    (ht : ta ≠ TagAccessor.id) (hc : ca ≠ CollectionAccessor.id)
    (hg : ga ≠ GroupAccessor.id) (hm : ma ≠ MediaAccessor.id)
    (hu : ua ≠ UserAccessor.id) :
    (t.access ta).isWrapped = true
    ∧ (c.access ca).isWrapped = true
    ∧ (g.access ga).isWrapped = true
    ∧ (m.access ma).isWrapped = true
    ∧ (u.access ua).isWrapped = true
    ∧ t.access TagAccessor.id = AccessorOutput.bare t.id
    ∧ c.access CollectionAccessor.id = AccessorOutput.bare c.id
    ∧ g.access GroupAccessor.id = AccessorOutput.bare g.id
    ∧ m.access MediaAccessor.id = AccessorOutput.bare m.id
    ∧ u.access UserAccessor.id = AccessorOutput.bare u.id := by
  refine ⟨?_, ?_, ?_, ?_, ?_, rfl, rfl, rfl, rfl, rfl⟩
  · cases ta with
    | id => exact absurd rfl ht
    | _ => rfl
  · cases ca with
    | id => exact absurd rfl hc
    | _ => rfl
  · cases ga with
    | id => exact absurd rfl hg
    | _ => rfl
  · cases ma with
    | id => exact absurd rfl hm
    | _ => rfl
  · cases ua with
    | id => exact absurd rfl hu
    | _ => rfl

/-- Witness for the amended C7 on concrete records and non-id accessors. -/
theorem accessors_wrapped_except_id_witness :
    ((Tag.new 0 "a" 0 []).access TagAccessor.name).isWrapped = true :=
  (accessors_wrapped_except_id (Tag.new 0 "a" 0 []) (Collection.new 0 "c" 0 [])
    (Group.new 0 "g" 0 []) (Media.new 0 "e" 0 Option.none) (User.new 0 "u" "h")
    TagAccessor.name CollectionAccessor.name GroupAccessor.name
    MediaAccessor.extension UserAccessor.name
    (by decide) (by decide) (by decide) (by decide) (by decide)).1

/-- Claim C8 counterexample: constructing a `Tag` from the 128-bit value
`2 ^ 64` (whose low 64 bits are `0` and high 64 bits are `1`) yields the
identifier `1` — the HIGH half — not the low half `0` the claim
requires. -/
theorem tag_id_is_not_the_low_bits :
    (Tag.new (2 ^ 64) "x" 0 []).id = 1
    ∧ (2 ^ 64 : Nat) % 2 ^ 64 = 0
    ∧ (Tag.new (2 ^ 64) "x" 0 []).id ≠ (2 ^ 64 : Nat) % 2 ^ 64 := by
  refine ⟨?_, ?_, ?_⟩ <;> norm_num [Tag.new, Uuid.as_u64_pair]

/-- Claim C8 (amended): every constructed record's 64-bit identifier equals
the high 64 bits — the first component of `as_u64_pair` — of the freshly
generated 128-bit value; the low 64 bits are discarded. -/
theorem record_id_is_high_64_bits (r cb : Nat) (name ext ph : String)
    (ids : List Nat) (props : Option MediaProps) :
    (Tag.new r name cb ids).id = r / 2 ^ 64 % 2 ^ 64
    ∧ (Collection.new r name cb ids).id = r / 2 ^ 64 % 2 ^ 64
    ∧ (Group.new r name cb ids).id = r / 2 ^ 64 % 2 ^ 64
    ∧ (Media.new r ext cb props).id = r / 2 ^ 64 % 2 ^ 64
    ∧ (User.new r name ph).id = r / 2 ^ 64 % 2 ^ 64 :=
  ⟨rfl, rfl, rfl, rfl, rfl⟩

end Ammuto
